import Mathlib

/-
Verification development for the clawwork-cli inscription mining engine.

Shallow embedding of the core of the repository:
  internal/api/types.go      (InscribeRequest, InscribeResponse, Challenge,
                              IsChallenge, GetChallenge, IsFatal, IsRateLimited)
  internal/miner/display.go  (State, State.Update, State.RecordChallengeFail)
  internal/miner/loop.go     (Run dispatch, mineOnce, answerChallenge,
                              startSession, isFatalSessionError,
                              handleFatalError, minDuration, constants)
  internal/miner/lock.go     (AcquireLock, processAlive)

Conventions of the embedding:
  * Go durations are modelled in whole seconds as Nat.
  * time.Now() is passed in explicitly as an Int parameter (unix seconds).
  * The external Client (HTTP) is modelled as a list of responses, one per
    Inscribe call, where a list entry of none (or an exhausted list) stands
    for a transport error.
  * The external LLM Provider is modelled as a function from the attempt
    index to a result, and context cancellation as a Bool-valued function of
    the attempt index (whether the inter-attempt sleep is interrupted).
  * Disk writes of the persistent state are recorded in an explicit save
    log (List State); the file system of the lock is an Option String
    (content of mine.lock, none when the file is absent or unreadable),
    and lock-file writes are assumed to succeed.
  * Go int / int64 fields are modelled as Int.  No claim below exercises
    integer overflow, so no wrap-around is applied.
-/

namespace ClawWork

/-! ### Constants (internal/miner/loop.go lines 16-22) -/

def defaultCooldown : Int := 1800

def maxChallengeRetries : Nat := 5

def maxLLMRetries : Nat := 3

def llmRetryDelaySecs : Nat := 2

def maxNetworkBackoffSecs : Nat := 300

/-! ### Data model (internal/api/types.go) -/

/-- Challenge (types.go lines 65-69). -/
structure Challenge where
  id : String := ""
  prompt : String := ""
  expiresIn : Int := 0
deriving DecidableEq

/-- IPPenalty (types.go lines 80-87), the fields the loop reads. -/
structure IPPenalty where
  ipMultiplier : Int := 0
  agentsOnIP : Int := 0
deriving DecidableEq

/-- InscribeResponse (types.go lines 19-62), the fields the engine reads. -/
structure InscribeResponse where
  error : String := ""
  message : String := ""
  hint : String := ""
  idStatus : String := ""
  tokenID : Int := 0
  hit : Bool := false
  cwEarned : Int := 0
  trustScore : Int := 0
  nftsRemaining : Int := 0
  retryAfter : Int := 0
  challenge : Option Challenge := none
  nextChallenge : Option Challenge := none
  ipPenalty : Option IPPenalty := none
  sessionID : String := ""
  clientVerified : Bool := false
  minClientVersion : String := ""
  upgradeURL : String := ""
deriving DecidableEq

/-- InscribeRequest (types.go lines 5-15). -/
structure InscribeRequest where
  tokenID : Int := 0
  challengeID : String := ""
  challengeAnswer : String := ""
  sessionID : String := ""
  sessionStart : Bool := false
  sessionEnd : Bool := false
deriving DecidableEq

/-- IsChallenge (types.go lines 127-134). -/
def InscribeResponse.IsChallenge (r : InscribeResponse) : Bool :=
  match r.error with
  | "CHALLENGE_REQUIRED" | "CHALLENGE_FAILED" | "CHALLENGE_EXPIRED"
  | "CHALLENGE_INVALID" | "CHALLENGE_USED" | "CHALLENGE_UNAVAILABLE" => true
  | _ => false

/-- GetChallenge (types.go lines 137-142): the Challenge field, falling back
to NextChallenge. -/
def InscribeResponse.GetChallenge (r : InscribeResponse) : Option Challenge :=
  match r.challenge with
  | some c => some c
  | none => r.nextChallenge

/-- IsFatal (types.go lines 145-153). -/
def InscribeResponse.IsFatal (r : InscribeResponse) : Bool :=
  match r.error with
  | "NOT_CLAIMED" | "WALLET_REQUIRED" | "AGENT_BANNED"
  | "INVALID_API_KEY" | "REGISTRATION_DISABLED"
  | "ALREADY_MINING" | "UPGRADE_REQUIRED" => true
  | _ => false

/-- IsRateLimited (types.go lines 156-158). -/
def InscribeResponse.IsRateLimited (r : InscribeResponse) : Bool :=
  r.error == "RATE_LIMITED" || r.error == "DAILY_LIMIT_REACHED"

/-! ### Persistent state (internal/miner/display.go lines 169-219) -/

/-- State (display.go lines 169-179), without the private file path. -/
structure State where
  lastChallenge : Option Challenge := none
  totalInscriptions : Int := 0
  totalCWEarned : Int := 0
  totalHits : Int := 0
  challengesPassed : Int := 0
  challengesFailed : Int := 0
  lastTrustScore : Int := 0
  lastMineAt : Int := 0
deriving DecidableEq

/-- State.Update (display.go lines 202-214).  `now` stands for time.Now(). -/
def State.Update (s : State) (resp : InscribeResponse) (now : Int) : State :=
  { s with
    totalInscriptions := s.totalInscriptions + 1
    totalCWEarned := s.totalCWEarned + resp.cwEarned
    totalHits := if resp.hit then s.totalHits + 1 else s.totalHits
    challengesPassed := s.challengesPassed + 1
    lastMineAt := now
    lastChallenge :=
      match resp.nextChallenge with
      | some c => some c
      | none => s.lastChallenge }

/-- State.RecordChallengeFail (display.go lines 217-219). -/
def State.RecordChallengeFail (s : State) : State :=
  { s with challengesFailed := s.challengesFailed + 1 }

/-- Iterated State.Update, used to relate counters to the number of
successful submissions. -/
def applyUpdates (s : State) : List (InscribeResponse × Int) → State
  | [] => s
  | (r, t) :: rest => applyUpdates (s.Update r t) rest

/-! ### Fatal error mapping (loop.go lines 485-514).
The model keeps the message of the Go error value returned. -/

def handleFatalError (resp : InscribeResponse) : String :=
  match resp.error with
  | "NOT_CLAIMED" => "agent not claimed"
  | "WALLET_REQUIRED" => "wallet required"
  | "AGENT_BANNED" => "agent banned"
  | "INVALID_API_KEY" => "invalid API key"
  | "ALREADY_MINING" => "already active in another session"
  | "UPGRADE_REQUIRED" => "upgrade required"
  | _ => "fatal error: " ++ resp.error ++ " — " ++ resp.message

/-- minDuration (loop.go lines 540-545), on seconds. -/
def minDuration (a b : Nat) : Nat :=
  if a < b then a else b

/-! ### The response dispatch of Run (loop.go lines 149-225).

After mineOnce returns a response without a transport error, Run checks in
order: IsFatal, IsRateLimited, IDStatus == "taken", Error != "" (the
unhandled-server-error guard), and only then runs the success block
(display, emit, State.Update, State.Save, 30-minute cooldown). -/

/-- Events sent through m.emit in the dispatch (the web-console event feed). -/
inductive MineEvent
  | cooldownEv (msg : String)
  | errorEv (msg : String)
  | hitEv (msg : String)
  | inscriptionEv (msg : String)
  | penaltyEv (msg : String)
deriving DecidableEq

/-- What the dispatch decides to do with the cycle. -/
inductive CycleAction
  | terminate (msg : String)
  | backoffRetry
  | rateLimitWait (secs : Int)
  | successCooldown
deriving DecidableEq

/-- True exactly for the events emitted by the success block of Run
(the "hit" and "inscription" emissions of loop.go lines 199-204). -/
def isSuccessEvent : MineEvent → Bool
  | .hitEv _ => true
  | .inscriptionEv _ => true
  | _ => false

/-- Bool-valued check that no event of the list is a success emission. -/
def noSuccessEvent (evs : List MineEvent) : Bool :=
  evs.all (fun e => !isSuccessEvent e)

/-- Run lines 149-225: handling of one non-transport response.  Returns the
state after the cycle, the save log (states passed to State.Save), the
events emitted, and the action taken. -/
def handleResponse (tokenID : Int) (st : State) (resp : InscribeResponse)
    (now : Int) : State × List State × List MineEvent × CycleAction :=
  if resp.IsFatal then
    (st, [], [], .terminate (handleFatalError resp))
  else if resp.IsRateLimited then
    let wait : Int := if resp.retryAfter ≤ 0 then defaultCooldown else resp.retryAfter
    let ev :=
      if resp.error = "DAILY_LIMIT_REACHED" then
        MineEvent.cooldownEv ("Daily limit reached. Waiting " ++ toString (wait / 60) ++ "m...")
      else
        MineEvent.cooldownEv ("Cooldown active. Waiting " ++ toString wait ++ "s...")
    (st, [], [ev], .rateLimitWait wait)
  else if resp.idStatus = "taken" then
    (st, [], [], .terminate ("token #" ++ toString tokenID ++ " is taken"))
  else if resp.error ≠ "" then
    (st, [], [MineEvent.errorEv ("Server: " ++ resp.error ++ " — " ++ resp.message)],
     .backoffRetry)
  else
    let evs1 :=
      if resp.hit then
        [MineEvent.hitEv ("NFT #" ++ toString resp.tokenID ++ " is yours!")]
      else
        [MineEvent.inscriptionEv ("CW: " ++ toString resp.cwEarned ++ " | Trust: "
          ++ toString resp.trustScore ++ " | NFTs left: " ++ toString resp.nftsRemaining)]
    let evs2 :=
      match resp.ipPenalty with
      | some p =>
        if p.ipMultiplier > 1 then
          [MineEvent.penaltyEv ("IP penalty: " ++ toString p.ipMultiplier
            ++ "x multiplier, " ++ toString p.agentsOnIP ++ " agents on IP")]
        else []
      | none => []
    let st1 := { st with lastTrustScore := resp.trustScore }
    let st2 := st1.Update resp now
    (st2, [st2],
     evs1 ++ evs2 ++ [MineEvent.cooldownEv ("Next inscription in "
       ++ toString (defaultCooldown / 60) ++ "m")],
     .successCooldown)

/-! ### Outer backoff of Run (loop.go lines 95, 126-147, 185-195).

One loop event is either a transport error from mineOnce (the err != nil
path, which also covers LLM failures and challenge-retry exhaustion) or a
response.  networkBackoff starts at 5s; the transport path sleeps it and
doubles it (capped at 5 minutes); every response resets it to 5s first
(loop.go line 147), and the unhandled-server-error guard then sleeps the
(freshly reset) backoff and doubles it. -/

inductive LoopEvent
  | transportErr
  | response (resp : InscribeResponse)

/-- The sequence of backoff sleeps (in seconds) Run performs over a sequence
of loop events, starting from backoff value b.  Fatal responses and a taken
token id terminate the loop, so nothing more is slept. -/
def backoffSleeps (b : Nat) : List LoopEvent → List Nat
  | [] => []
  | .transportErr :: rest =>
    b :: backoffSleeps (minDuration (b * 2) maxNetworkBackoffSecs) rest
  | .response r :: rest =>
    let b2 := 5
    if r.IsFatal then []
    else if r.IsRateLimited then backoffSleeps b2 rest
    else if r.idStatus = "taken" then []
    else if r.error ≠ "" then
      b2 :: backoffSleeps (minDuration (b2 * 2) maxNetworkBackoffSecs) rest
    else backoffSleeps b2 rest

/-- Bool-valued check that every entry of the list is at most m. -/
def allLe (l : List Nat) (m : Nat) : Bool :=
  l.all (fun s => s ≤ m)

/-! ### mineOnce (loop.go lines 299-379) -/

/-- Building the initial request (loop.go lines 300-316): attach the cached
challenge answer when one is held.  `solve` stands for answerChallenge. -/
def buildInitialReq (solve : Challenge → Except String String) (st : State)
    (tokenID : Int) (sessionID : String) : Except String InscribeRequest :=
  match st.lastChallenge with
  | none => .ok { tokenID := tokenID, sessionID := sessionID }
  | some ch =>
    match solve ch with
    | .error e => .error ("LLM error: " ++ e)
    | .ok ans =>
      .ok { tokenID := tokenID, sessionID := sessionID,
            challengeID := ch.id, challengeAnswer := ans }

/-- What one iteration of the challenge retry sub-loop decides: either the
loop ends (with the outcome of mineOnce) or the cycle must resubmit and consume
the next server response. -/
inductive StepOut
  | done (st : State) (res : Except String InscribeResponse)
  | resubmit (st : State)

/-- One iteration of the challenge retry sub-loop of mineOnce (loop.go
lines 325-356), together with its post-loop handling (lines 358-378): check
the loop condition, extract the replacement challenge, count a
CHALLENGE_FAILED, solve the challenge, and either end the cycle or request
a resubmission. -/
def challengeStep (solve : Challenge → Except String String) (st : State)
    (resp : InscribeResponse) (i : Nat) : StepOut :=
  if resp.IsChallenge ∧ i < maxChallengeRetries then
    match resp.GetChallenge with
    | none =>
      .done { st with lastChallenge := none }
        (.error "server returned challenge error without a new challenge")
    | some ch =>
      let st1 := if resp.error = "CHALLENGE_FAILED" then st.RecordChallengeFail else st
      match solve ch with
      | .error e => .done st1 (.error ("LLM error: " ++ e))
      | .ok _ => .resubmit st1
  else if resp.IsChallenge then
    match resp.GetChallenge with
    | some ch =>
      .done { st with lastChallenge := some ch }
        (.error "failed to pass challenge after 5 retries")
    | none =>
      .done { st with lastChallenge := none }
        (.error "failed to pass challenge after 5 retries")
  else
    .done
      (match resp.nextChallenge with
       | some c => { st with lastChallenge := some c }
       | none => st)
      (.ok resp)

/-- The challenge retry sub-loop of mineOnce (loop.go lines 325-378).
`server` lists the responses to the successive resubmissions (none, or list
exhaustion, is a transport error on the resubmission).  Returns (state,
number of resubmissions performed, outcome). -/
def challengeLoop (solve : Challenge → Except String String) :
    List (Option InscribeResponse) → State → InscribeResponse → Nat →
    State × Nat × Except String InscribeResponse
  | [], st, resp, i =>
    (match challengeStep solve st resp i with
     | .done st2 res => (st2, 0, res)
     | .resubmit st1 => (st1, 1, .error "transport error"))
  | none :: _, st, resp, i =>
    (match challengeStep solve st resp i with
     | .done st2 res => (st2, 0, res)
     | .resubmit st1 => (st1, 1, .error "transport error"))
  | some r2 :: rest, st, resp, i =>
    (match challengeStep solve st resp i with
     | .done st2 res => (st2, 0, res)
     | .resubmit st1 =>
       let out := challengeLoop solve rest st1 r2 (i + 1)
       (out.1, out.2.1 + 1, out.2.2))

/-- Decidable equality for Except results, so concrete runs can be checked
by `decide`. -/
def exceptDecEq {ε α : Type} [DecidableEq ε] [DecidableEq α] :
    (a b : Except ε α) → Decidable (a = b)
  | .error e, .error f => decidable_of_iff (e = f) (by simp)
  | .error _, .ok _ => .isFalse (by simp)
  | .ok _, .error _ => .isFalse (by simp)
  | .ok x, .ok y => decidable_of_iff (x = y) (by simp)

instance {ε α : Type} [DecidableEq ε] [DecidableEq α] : DecidableEq (Except ε α) :=
  exceptDecEq

/-- Result of one mineOnce call. -/
structure MineOut where
  state : State
  resubmits : Nat
  result : Except String InscribeResponse
deriving DecidableEq

/-- mineOnce (loop.go lines 299-379).  The head of `server` answers the
initial Inscribe call, the tail answers resubmissions. -/
def mineOnce (solve : Challenge → Except String String)
    (server : List (Option InscribeResponse)) (tokenID : Int)
    (sessionID : String) (st : State) : MineOut :=
  match buildInitialReq solve st tokenID sessionID with
  | .error e => ⟨st, 0, .error e⟩
  | .ok _req =>
    match server with
    | [] => ⟨st, 0, .error "transport error"⟩
    | none :: _ => ⟨st, 0, .error "transport error"⟩
    | some r :: rest =>
      let out := challengeLoop solve rest st r 0
      ⟨out.1, out.2.1, out.2.2⟩

/-- What one iteration of the Run loop does after mineOnce. -/
inductive CycleStep
  | errRetry (msg : String)
  | handled (act : CycleAction)
deriving DecidableEq

/-- One full cycle of the Run loop (loop.go lines 126-225): mineOnce, then
either the error/backoff path or the response dispatch.  Returns the state,
the save log and the step taken. -/
def runCycle (solve : Challenge → Except String String)
    (server : List (Option InscribeResponse)) (tokenID : Int)
    (sessionID : String) (st : State) (now : Int) :
    State × List State × CycleStep :=
  let mo := mineOnce solve server tokenID sessionID st
  match mo.result with
  | .error e => (mo.state, [], .errRetry e)
  | .ok resp =>
    let h := handleResponse tokenID mo.state resp now
    (h.1, h.2.1, .handled h.2.2.2)

/-! ### answerChallenge (loop.go lines 381-422) -/

/-- One result of the LLM Provider. -/
inductive ProviderResult
  | err (e : String)
  | ok (answer : String)
deriving DecidableEq

/-- A Provider result that answerChallenge treats as a failed attempt:
an error, or an empty answer. -/
def provFails : ProviderResult → Bool
  | .err _ => true
  | .ok a => a == ""

/-- The failure cause recorded in lastErr for a failed attempt. -/
def provFailMsg : ProviderResult → String
  | .err e => e
  | .ok _ => "LLM returned empty answer"

/-- Trace of one answerChallenge call: provider calls made, sleeps requested
(seconds), and the result. -/
structure SolveOut where
  calls : Nat
  sleeps : List Nat
  result : Except String String
deriving DecidableEq

/-- The retry loop of answerChallenge (loop.go lines 389-421).  `provider`
gives the Provider result per attempt index; `cancelledAt` tells whether the
context is cancelled during the inter-attempt sleep before that attempt.
fuel = maxLLMRetries - attempt. -/
def answerLoop (provider : Nat → ProviderResult) (cancelledAt : Nat → Bool) :
    Nat → Nat → String → SolveOut
  | 0, _, lastErr =>
    ⟨0, [], .error ("LLM failed after 3 attempts: " ++ lastErr)⟩
  | fuel + 1, attempt, _lastErr =>
    if attempt > 0 ∧ cancelledAt attempt then
      ⟨0, [llmRetryDelaySecs], .error "cancelled"⟩
    else
      let pre : List Nat := if attempt > 0 then [llmRetryDelaySecs] else []
      match provider attempt with
      | .err e =>
        let o := answerLoop provider cancelledAt fuel (attempt + 1) e
        ⟨o.calls + 1, pre ++ o.sleeps, o.result⟩
      | .ok a =>
        if a = "" then
          let o := answerLoop provider cancelledAt fuel (attempt + 1) "LLM returned empty answer"
          ⟨o.calls + 1, pre ++ o.sleeps, o.result⟩
        else
          ⟨1, pre, .ok a⟩

/-- answerChallenge (loop.go lines 381-422), starting at attempt 0 with
an empty lastErr. -/
def answerChallengeModel (provider : Nat → ProviderResult)
    (cancelledAt : Nat → Bool) : SolveOut :=
  answerLoop provider cancelledAt maxLLMRetries 0 ""

/-! ### Session start (loop.go lines 66-75, 231-295) -/

/-- Go strings.Contains on char lists. -/
def containsSub (s pat : List Char) : Bool :=
  match s with
  | [] => pat.isEmpty
  | _ :: t => pat.isPrefixOf s || containsSub t pat

/-- Go strings.Contains(s, pat). -/
def goContains (s pat : String) : Bool :=
  containsSub s.toList pat.toList

/-- isFatalSessionError (loop.go lines 290-295). -/
def isFatalSessionError (msg : String) : Bool :=
  msg == "ALREADY_MINING" || msg == "UPGRADE_REQUIRED" ||
    goContains msg "agent not claimed" || goContains msg "agent banned"

/-- startSession (loop.go lines 231-277).  `apiResult` is the outcome of
Client.StartSession (an error value for a transport failure).  On success
returns the session id adopted and the cached challenge resulting from the
response (given the current state). -/
def startSessionModel (st : State)
    (apiResult : Except String InscribeResponse) :
    Except String (String × Option Challenge) :=
  match apiResult with
  | .error e => .error e
  | .ok resp =>
    if resp.error = "ALREADY_MINING" then .error "ALREADY_MINING"
    else if resp.error = "UPGRADE_REQUIRED" then .error "UPGRADE_REQUIRED"
    else if resp.IsFatal then .error (handleFatalError resp)
    else
      let sid := resp.sessionID
      let lc1 :=
        match resp.GetChallenge with
        | some c => some c
        | none => st.lastChallenge
      let lc2 :=
        match resp.nextChallenge with
        | some c => some c
        | none => lc1
      .ok (sid, lc2)

/-- How Phase 1 of Run ends. -/
inductive Phase1Result
  | terminated (msg : String)
  | proceed (sessionID : String) (lastChallenge : Option Challenge)
deriving DecidableEq

/-- Run lines 66-75: start the session; terminate on a fatal session error,
otherwise continue (sessionless when the start failed). -/
def phase1 (st : State) (apiResult : Except String InscribeResponse) :
    Phase1Result :=
  match startSessionModel st apiResult with
  | .error e =>
    if isFatalSessionError e then .terminated e
    else .proceed "" st.lastChallenge
  | .ok (sid, lc) => .proceed sid lc

/-! ### Process lock (internal/miner/lock.go) -/

/-- Numeric value of a list of decimal digits. -/
def digitsToNat (l : List Char) : Nat :=
  l.foldl (fun acc c => acc * 10 + (c.toNat - '0'.toNat)) 0

/-- Go strconv.Atoi (optional sign, decimal digits; PIDs are far from the
int overflow bound, which is not modelled). -/
def goAtoi (s : String) : Option Int :=
  match s.toList with
  | [] => none
  | '+' :: rest =>
    if rest ≠ [] ∧ rest.all Char.isDigit then some (digitsToNat rest) else none
  | '-' :: rest =>
    if rest ≠ [] ∧ rest.all Char.isDigit then some (-(digitsToNat rest : Int)) else none
  | l =>
    if l.all Char.isDigit then some (digitsToNat l) else none

/-- Go strings.TrimSpace (whitespace here being space, tab, CR, LF: the
forms a PID lock file can contain). -/
def goTrimSpace (s : String) : String :=
  String.mk (((s.toList.dropWhile Char.isWhitespace).reverse.dropWhile
    Char.isWhitespace).reverse)

/-- AcquireLock (lock.go lines 16-40).  `lockFile` is the content of
mine.lock (none when absent/unreadable), `alive` is processAlive, `curPid`
is os.Getpid(), `lockPath` the path shown in the error.  Returns the
acquisition outcome and the final content of the lock file. -/
def acquireLock (lockFile : Option String) (alive : Int → Bool)
    (curPid : Int) (lockPath : String) : Except String Unit × Option String :=
  match lockFile with
  | some data =>
    match goAtoi (goTrimSpace data) with
    | some pid =>
      if alive pid then
        (.error ("another clawwork instance is running (PID " ++ toString pid
          ++ ")\nIf this is wrong, remove: " ++ lockPath), some data)
      else
        (.ok (), some (toString curPid))
    | none => (.ok (), some (toString curPid))
  | none => (.ok (), some (toString curPid))

/-! ### Concrete inputs used by witnesses and counterexamples -/

/-- The zero-valued state of a first run. -/
def st0 : State := {}

/-- A solver (answerChallenge) stub that always succeeds. -/
def solveOkW : Challenge → Except String String := fun _ => .ok "ans"

/-- An unrecognized server error code (the unhandled-server-error guard). -/
def respUnhandledW : InscribeResponse :=
  { error := "SOME_FUTURE_ERROR", message := "unknown" }

/-- A CHALLENGE_FAILED response carrying a fresh challenge. -/
def chFailFreshW : InscribeResponse :=
  { error := "CHALLENGE_FAILED", challenge := some { id := "c1" } }

/-- A CHALLENGE_FAILED response carrying no challenge at all. -/
def chFailNoChW : InscribeResponse := { error := "CHALLENGE_FAILED" }

/-- Server trace: a penalized challenge failure, then a challenge error
without a replacement challenge — the cycle mutates the failure counter and
then fails. -/
def serverFailW : List (Option InscribeResponse) := [some chFailFreshW, some chFailNoChW]

/-- A plain successful inscription response. -/
def successRespW : InscribeResponse :=
  { cwEarned := 2500, trustScore := 85, nftsRemaining := 892 }

/-- Server trace of one immediately successful cycle. -/
def successServerW : List (Option InscribeResponse) := [some successRespW]

/-- A state holding a cached, unresolved challenge. -/
def stWithChW : State := { lastChallenge := some { id := "c1" } }

/-- A Provider that always fails. -/
def provW : Nat → ProviderResult := fun _ => .err "boom"

/-- A context cancelled during the sleep before the third attempt. -/
def cancel2W : Nat → Bool := fun i => i == 2

/-- Session-start response NOT_CLAIMED (a fatal code outside the two the
spec names). -/
def respNotClaimedW : InscribeResponse := { error := "NOT_CLAIMED" }

/-- Session-start response WALLET_REQUIRED (fatal in the mining loop, but
not a fatal session error). -/
def respWalletW : InscribeResponse := { error := "WALLET_REQUIRED" }

/-- A live-owner liveness check for PID 123. -/
def aliveW : Int → Bool := fun p => p == 123

/-- A liveness check under which no process is alive. -/
def deadW : Int → Bool := fun _ => false

/-! ## Theorems -/

/-! ### C10: challenges_passed counts successful submissions -/

lemma applyUpdates_counts (l : List (InscribeResponse × Int)) :
    ∀ s : State,
      (applyUpdates s l).challengesPassed = s.challengesPassed + l.length
      ∧ (applyUpdates s l).totalInscriptions = s.totalInscriptions + l.length := by
  induction l with
  | nil => intro s; simp [applyUpdates]
  | cons p rest ih =>
    intro s
    obtain ⟨r, t⟩ := p
    have h := ih (s.Update r t)
    constructor
    · rw [applyUpdates, h.1]
      simp [State.Update]
      ring
    · rw [applyUpdates, h.2]
      simp [State.Update]
      ring

/-- C10: State.Update increments the challenges_passed counter on every
successful submission, whether or not a challenge was attached or solved, so
after any sequence of successful submissions challenges_passed has grown by
exactly the number of submissions, as has total_inscriptions. -/
theorem c10_passed_counts_submissions (st : State) (resp : InscribeResponse)
    (now : Int) (l : List (InscribeResponse × Int)) :
    (State.Update st resp now).challengesPassed = st.challengesPassed + 1
    ∧ (State.Update st resp now).totalInscriptions = st.totalInscriptions + 1
    ∧ (applyUpdates st l).challengesPassed = st.challengesPassed + l.length
    ∧ (applyUpdates st l).totalInscriptions = st.totalInscriptions + l.length :=
  ⟨rfl, rfl, (applyUpdates_counts l st).1, (applyUpdates_counts l st).2⟩

/-! ### C9: a success without next_challenge keeps the cached challenge -/

/-- C9: when a successful response carries no next_challenge, State.Update
leaves the cached LastChallenge untouched, and the request build of the next
cycle attaches exactly that cached (already consumed) challenge again. -/
theorem c9_update_preserves_cached_challenge (st : State)
    (resp : InscribeResponse) (now : Int) (ch : Challenge)
    (solve : Challenge → Except String String) (ans : String)
    (tokenID : Int) (sessionID : String)
    (hnc : resp.nextChallenge = none) (hch : st.lastChallenge = some ch)
    (hsolve : solve ch = Except.ok ans) :
    (State.Update st resp now).lastChallenge = st.lastChallenge
    ∧ buildInitialReq solve (State.Update st resp now) tokenID sessionID =
        Except.ok { tokenID := tokenID, sessionID := sessionID,
                    challengeID := ch.id, challengeAnswer := ans } := by
  have h1 : (State.Update st resp now).lastChallenge = st.lastChallenge := by
    simp [State.Update, hnc]
  refine ⟨h1, ?_⟩
  rw [buildInitialReq, h1, hch]
  simp [hsolve]

/-- Witness for C9 at a concrete state, response and solver. -/
theorem c9_witness :
    (State.Update stWithChW successRespW 1000).lastChallenge = stWithChW.lastChallenge
    ∧ buildInitialReq solveOkW (State.Update stWithChW successRespW 1000) 7 "" =
        Except.ok { tokenID := 7, sessionID := "",
                    challengeID := Challenge.id { id := "c1" },
                    challengeAnswer := "ans" } :=
  c9_update_preserves_cached_challenge stWithChW successRespW 1000
    { id := "c1" } solveOkW "ans" 7 "" rfl rfl rfl

/-! ### C1: an error code never reaches the success handling -/

/-- C1: in the Run dispatch, a response carrying a non-empty error code
never executes the success block: the state is not updated, nothing is
saved, no success event (hit/inscription) is emitted, and the 30-minute
success cooldown is not entered. -/
theorem c1_error_never_success (tokenID : Int) (st : State)
    (resp : InscribeResponse) (now : Int) (herr : resp.error ≠ "") :
    (handleResponse tokenID st resp now).1 = st
    ∧ (handleResponse tokenID st resp now).2.1 = []
    ∧ (handleResponse tokenID st resp now).2.2.2 ≠ CycleAction.successCooldown
    ∧ noSuccessEvent (handleResponse tokenID st resp now).2.2.1 = true := by
  unfold handleResponse
  split_ifs with h1 h2 h3 h4 <;>
    simp_all [noSuccessEvent, isSuccessEvent, apply_ite]

/-- Witness for C1 at an unrecognized error code. -/
theorem c1_witness :
    (handleResponse 7 st0 respUnhandledW 0).1 = st0
    ∧ (handleResponse 7 st0 respUnhandledW 0).2.1 = []
    ∧ (handleResponse 7 st0 respUnhandledW 0).2.2.2 ≠ CycleAction.successCooldown
    ∧ noSuccessEvent (handleResponse 7 st0 respUnhandledW 0).2.2.1 = true :=
  c1_error_never_success 7 st0 respUnhandledW 0 (by decide)

/-! ### C2: backoff on consecutive unhandled server errors -/

/-- C2: two consecutive UnhandledServerError responses make the loop sleep
5s and then 5s again — not 5s then 10s.  The reset of the backoff on every
non-transport response (loop.go line 147) precedes the unhandled-error
sleep, so the doubling applied after that sleep (line 193) is overwritten on
the next cycle and consecutive unhandled errors never escalate. -/
theorem c2_constant_backoff_on_unhandled :
    backoffSleeps 5 [LoopEvent.response respUnhandledW,
                     LoopEvent.response respUnhandledW] = [5, 5]
    ∧ ([5, 5] : List Nat) ≠ [5, 10] := by
  exact ⟨rfl, by decide⟩

/-! ### C6: transport backoff growth, cap and reset -/

lemma minDuration_le_right (a b : Nat) : minDuration a b ≤ b := by
  unfold minDuration
  split <;> omega

lemma backoffSleeps_all_le (events : List LoopEvent) :
    ∀ b : Nat, b ≤ maxNetworkBackoffSecs →
      allLe (backoffSleeps b events) maxNetworkBackoffSecs = true := by
  induction events with
  | nil => intro b _; rfl
  | cons e rest ih =>
    intro b hb
    cases e with
    | transportErr =>
      rw [backoffSleeps]
      simp only [allLe, List.all_cons]
      rw [Bool.and_eq_true, decide_eq_true_iff]
      exact ⟨hb, ih _ (minDuration_le_right _ _)⟩
    | response r =>
      rw [backoffSleeps]
      split_ifs
      · rfl
      · exact ih 5 (by decide)
      · rfl
      · simp only [allLe, List.all_cons]
        rw [Bool.and_eq_true, decide_eq_true_iff]
        exact ⟨by decide, ih _ (minDuration_le_right _ _)⟩
      · exact ih 5 (by decide)

/-- C6: three consecutive transport errors sleep exactly 5s, 10s, 20s; no
backoff sleep ever exceeds 300 seconds (starting from any in-range backoff
value); and the behaviour after any non-transport response is as if the
backoff had been reset to 5 seconds. -/
theorem c6_backoff_growth_cap_reset (b : Nat) (events : List LoopEvent)
    (r : InscribeResponse) (rest : List LoopEvent)
    (hb : b ≤ maxNetworkBackoffSecs) :
    backoffSleeps 5 [LoopEvent.transportErr, LoopEvent.transportErr,
                     LoopEvent.transportErr] = [5, 10, 20]
    ∧ allLe (backoffSleeps b events) maxNetworkBackoffSecs = true
    ∧ backoffSleeps b (LoopEvent.response r :: rest) =
        backoffSleeps 5 (LoopEvent.response r :: rest) := by
  refine ⟨rfl, backoffSleeps_all_le events b hb, ?_⟩
  rw [backoffSleeps, backoffSleeps]

/-- Witness for C6 at a concrete backoff value and event list. -/
theorem c6_witness :
    backoffSleeps 5 [LoopEvent.transportErr, LoopEvent.transportErr,
                     LoopEvent.transportErr] = [5, 10, 20]
    ∧ allLe (backoffSleeps 5 [LoopEvent.transportErr]) maxNetworkBackoffSecs = true
    ∧ backoffSleeps 5 (LoopEvent.response respUnhandledW :: []) =
        backoffSleeps 5 (LoopEvent.response respUnhandledW :: []) :=
  c6_backoff_growth_cap_reset 5 [LoopEvent.transportErr] respUnhandledW []
    (by decide)

/-! ### C8: process lock exclusivity and stale-lock reclaim -/

/-- C8: when the lock file records the PID of a live process, AcquireLock
fails with an already-running error naming that PID and leaves the file
untouched; when the recorded owner is not alive, the stale file is replaced
and acquisition succeeds, recording the current PID. -/
theorem c8_lock_exclusivity (lockFile : Option String) (d : String)
    (pid : Int) (alive : Int → Bool) (curPid : Int) (lockPath : String)
    (hfile : lockFile = some d) (hparse : goAtoi (goTrimSpace d) = some pid) :
    (alive pid = true →
      acquireLock lockFile alive curPid lockPath =
        (Except.error ("another clawwork instance is running (PID "
            ++ toString pid ++ ")\nIf this is wrong, remove: " ++ lockPath),
         some d))
    ∧ (alive pid = false →
      acquireLock lockFile alive curPid lockPath =
        (Except.ok (), some (toString curPid))) := by
  subst hfile
  constructor <;> intro h <;> simp [acquireLock, hparse, h]

/-- Witness for C8: a lock recording PID 123 blocks acquisition while 123 is
alive and is reclaimed when it is not. -/
theorem c8_witness :
    acquireLock (some "123") aliveW 77 "/tmp/mine.lock" =
      (Except.error ("another clawwork instance is running (PID "
          ++ toString (123 : Int) ++ ")\nIf this is wrong, remove: "
          ++ "/tmp/mine.lock"),
       some "123")
    ∧ acquireLock (some "123") deadW 77 "/tmp/mine.lock" =
        (Except.ok (), some (toString (77 : Int))) :=
  ⟨(c8_lock_exclusivity (some "123") "123" 123 aliveW 77 "/tmp/mine.lock"
      rfl (by decide)).1 (by decide),
   (c8_lock_exclusivity (some "123") "123" 123 deadW 77 "/tmp/mine.lock"
      rfl (by decide)).2 (by decide)⟩

/-! ### C4: which session-start errors terminate the engine -/

/-- C4 counterexample: a session-start response with error code NOT_CLAIMED
— which is neither ALREADY_MINING nor UPGRADE_REQUIRED — terminates the
engine (isFatalSessionError also matches "agent not claimed" and "agent
banned"), refuting "exactly the two fatal session errors". -/
theorem c4_counterexample :
    phase1 st0 (Except.ok respNotClaimedW) =
      Phase1Result.terminated "agent not claimed"
    ∧ "agent not claimed" ≠ "ALREADY_MINING"
    ∧ "agent not claimed" ≠ "UPGRADE_REQUIRED" := by
  refine ⟨by decide, by decide, by decide⟩

/-- C4 (amended): session start terminates the engine exactly for the
session errors whose message is ALREADY_MINING or UPGRADE_REQUIRED or
contains "agent not claimed" or "agent banned" — i.e. also for the
NOT_CLAIMED and AGENT_BANNED response codes; every other session-start
error (e.g. WALLET_REQUIRED, INVALID_API_KEY, or a transport failure whose
text avoids those markers) logs and continues sessionless with a blank
session id. -/
theorem c4_amended_fatal_session_set (st : State) (resp : InscribeResponse)
    (e : String) :
    (resp.error = "NOT_CLAIMED" →
      phase1 st (Except.ok resp) = Phase1Result.terminated "agent not claimed")
    ∧ (resp.error = "AGENT_BANNED" →
      phase1 st (Except.ok resp) = Phase1Result.terminated "agent banned")
    ∧ (resp.error = "ALREADY_MINING" →
      phase1 st (Except.ok resp) = Phase1Result.terminated "ALREADY_MINING")
    ∧ (resp.error = "UPGRADE_REQUIRED" →
      phase1 st (Except.ok resp) = Phase1Result.terminated "UPGRADE_REQUIRED")
    ∧ (resp.error = "WALLET_REQUIRED" →
      phase1 st (Except.ok resp) = Phase1Result.proceed "" st.lastChallenge)
    ∧ (resp.error = "INVALID_API_KEY" →
      phase1 st (Except.ok resp) = Phase1Result.proceed "" st.lastChallenge)
    ∧ (isFatalSessionError e = false →
      phase1 st (Except.error e) = Phase1Result.proceed "" st.lastChallenge) := by
  refine ⟨?_, ?_, ?_, ?_, ?_, ?_, ?_⟩ <;> intro h
  · have hfs : isFatalSessionError "agent not claimed" = true := by decide
    simp [phase1, startSessionModel, InscribeResponse.IsFatal,
      handleFatalError, h, hfs]
  · have hfs : isFatalSessionError "agent banned" = true := by decide
    simp [phase1, startSessionModel, InscribeResponse.IsFatal,
      handleFatalError, h, hfs]
  · have hfs : isFatalSessionError "ALREADY_MINING" = true := by decide
    simp [phase1, startSessionModel, h, hfs]
  · have hfs : isFatalSessionError "UPGRADE_REQUIRED" = true := by decide
    simp [phase1, startSessionModel, h, hfs]
  · have hfs : isFatalSessionError "wallet required" = false := by decide
    simp [phase1, startSessionModel, InscribeResponse.IsFatal,
      handleFatalError, h, hfs]
  · have hfs : isFatalSessionError "invalid API key" = false := by decide
    simp [phase1, startSessionModel, InscribeResponse.IsFatal,
      handleFatalError, h, hfs]
  · simp [phase1, startSessionModel, h]

/-- Witness for C4 (amended): WALLET_REQUIRED at session start does not
terminate — the engine proceeds sessionless. -/
theorem c4_witness :
    phase1 st0 (Except.ok respWalletW) =
      Phase1Result.proceed "" st0.lastChallenge :=
  (c4_amended_fatal_session_set st0 respWalletW "x").2.2.2.2.1 rfl

/-! ### C3: when the persisted state is actually written -/

/-- C3 counterexample: a cycle in which a CHALLENGE_FAILED response
increments challenges_failed (0 to 1) inside the challenge retry sub-loop,
yet the save log of the whole cycle is empty — the updated state is not
persisted as part of handling that event. -/
theorem c3_counterexample :
    ((runCycle solveOkW serverFailW 7 "" st0 0).1.challengesFailed = 1
      ∧ st0.challengesFailed = 0)
    ∧ (runCycle solveOkW serverFailW 7 "" st0 0).2.1 = [] := by
  refine ⟨⟨by decide, rfl⟩, by decide⟩

lemma handleResponse_saves (tokenID : Int) (st : State)
    (resp : InscribeResponse) (now : Int) :
    ((handleResponse tokenID st resp now).2.2.2 = CycleAction.successCooldown →
      (handleResponse tokenID st resp now).2.1 =
        [(handleResponse tokenID st resp now).1])
    ∧ ((handleResponse tokenID st resp now).2.2.2 ≠ CycleAction.successCooldown →
      (handleResponse tokenID st resp now).2.1 = []) := by
  unfold handleResponse
  split_ifs <;> simp

/-- C3 (amended): the persisted EngineState is written exactly when a cycle
ends in the success block of Run — the save log then holds exactly the
updated final state; on every other cycle outcome (including the challenge
retry sub-loop, whose CHALLENGE_FAILED handling increments the
challenges_failed counter in memory only) nothing is saved, the counter
reaching disk only with a later success save. -/
theorem c3_amended_saves_only_on_success
    (solve : Challenge → Except String String)
    (server : List (Option InscribeResponse)) (tokenID : Int)
    (sessionID : String) (st : State) (now : Int) :
    ((runCycle solve server tokenID sessionID st now).2.2 =
        CycleStep.handled CycleAction.successCooldown →
      (runCycle solve server tokenID sessionID st now).2.1 =
        [(runCycle solve server tokenID sessionID st now).1])
    ∧ ((runCycle solve server tokenID sessionID st now).2.2 ≠
        CycleStep.handled CycleAction.successCooldown →
      (runCycle solve server tokenID sessionID st now).2.1 = []) := by
  unfold runCycle
  rcases hres : (mineOnce solve server tokenID sessionID st).result with e | resp
  · simp [hres]
  · simp only [hres]
    have h := handleResponse_saves tokenID
      (mineOnce solve server tokenID sessionID st).state resp now
    constructor
    · intro hs
      exact h.1 (by injection hs)
    · intro hs
      refine h.2 (fun hc => hs ?_)
      rw [hc]

/-- Witness for C3 (amended): a successful cycle saves exactly the updated
state once. -/
theorem c3_witness :
    (runCycle solveOkW successServerW 7 "" st0 1000).2.1 =
      [(runCycle solveOkW successServerW 7 "" st0 1000).1] :=
  (c3_amended_saves_only_on_success solveOkW successServerW 7 "" st0 1000).1
    (by decide)

/-! ### C5: challenge retry bound and caching -/

lemma answerLoop_calls_le (provider : Nat → ProviderResult)
    (cancelledAt : Nat → Bool) :
    ∀ (fuel attempt : Nat) (lastErr : String),
      (answerLoop provider cancelledAt fuel attempt lastErr).calls ≤ fuel := by
  intro fuel
  induction fuel with
  | zero => intro attempt lastErr; exact Nat.le_refl 0
  | succ n ih =>
    intro attempt lastErr
    rw [answerLoop]
    by_cases hc : attempt > 0 ∧ cancelledAt attempt = true
    · rw [if_pos hc]
      exact Nat.zero_le _
    · rw [if_neg hc]
      rcases hp : provider attempt with e | a
      · simp only [hp]
        simpa using Nat.succ_le_succ (ih (attempt + 1) e)
      · simp only [hp]
        by_cases ha : a = ""
        · rw [if_pos ha]
          simpa using Nat.succ_le_succ (ih (attempt + 1) _)
        · rw [if_neg ha]
          simp

lemma answerLoop_sleeps_two (provider : Nat → ProviderResult)
    (cancelledAt : Nat → Bool) :
    ∀ (fuel attempt : Nat) (lastErr : String) (s : Nat),
      s ∈ (answerLoop provider cancelledAt fuel attempt lastErr).sleeps →
      s = llmRetryDelaySecs := by
  intro fuel
  induction fuel with
  | zero => intro attempt lastErr s hs; simp [answerLoop] at hs
  | succ n ih =>
    intro attempt lastErr s hs
    rw [answerLoop] at hs
    by_cases hc : attempt > 0 ∧ cancelledAt attempt = true
    · rw [if_pos hc] at hs
      simpa using hs
    · rw [if_neg hc] at hs
      rcases hp : provider attempt with e | a
      · simp only [hp] at hs
        rcases List.mem_append.1 hs with h1 | h2
        · split_ifs at h1 <;> simp_all
        · exact ih (attempt + 1) e s h2
      · simp only [hp] at hs
        by_cases ha : a = ""
        · rw [if_pos ha] at hs
          rcases List.mem_append.1 hs with h1 | h2
          · split_ifs at h1 <;> simp_all
          · exact ih (attempt + 1) _ s h2
        · rw [if_neg ha] at hs
          simp only at hs
          split_ifs at hs <;> simp_all

lemma answerLoop_ok_src (provider : Nat → ProviderResult)
    (cancelledAt : Nat → Bool) :
    ∀ (fuel attempt : Nat) (lastErr : String) (a : String),
      (answerLoop provider cancelledAt fuel attempt lastErr).result =
        Except.ok a →
      a ≠ "" ∧ ∃ i, attempt ≤ i ∧ i < attempt + fuel
        ∧ provider i = ProviderResult.ok a
        ∧ ∀ j, attempt ≤ j → j < i → provFails (provider j) = true := by
  intro fuel
  induction fuel with
  | zero => intro attempt lastErr a h; simp [answerLoop] at h
  | succ n ih =>
    intro attempt lastErr a h
    rw [answerLoop] at h
    by_cases hc : attempt > 0 ∧ cancelledAt attempt = true
    · rw [if_pos hc] at h
      simp at h
    · rw [if_neg hc] at h
      rcases hp : provider attempt with e | b
      · simp only [hp] at h
        obtain ⟨hne, i, h1, h2, h3, h4⟩ := ih (attempt + 1) e a h
        refine ⟨hne, i, by omega, by omega, h3, ?_⟩
        intro j hj1 hj2
        rcases Nat.eq_or_lt_of_le hj1 with rfl | hj
        · simp [provFails, hp]
        · exact h4 j hj hj2
      · simp only [hp] at h
        by_cases hb : b = ""
        · rw [if_pos hb] at h
          simp only at h
          obtain ⟨hne, i, h1, h2, h3, h4⟩ :=
            ih (attempt + 1) "LLM returned empty answer" a h
          refine ⟨hne, i, by omega, by omega, h3, ?_⟩
          intro j hj1 hj2
          rcases Nat.eq_or_lt_of_le hj1 with rfl | hj
          · simp [provFails, hp, hb]
          · exact h4 j hj hj2
        · rw [if_neg hb] at h
          simp only at h
          have hba : b = a := by simpa using h
          subst hba
          refine ⟨hb, attempt, Nat.le_refl _, by omega, hp, ?_⟩
          intro j hj1 hj2
          omega

lemma answerLoop_exhaust (provider : Nat → ProviderResult)
    (cancelledAt : Nat → Bool) (hnc : ∀ i, cancelledAt i = false) :
    ∀ (fuel attempt : Nat) (lastErr : String),
      (∀ i, attempt ≤ i → i < attempt + fuel → provFails (provider i) = true) →
      (answerLoop provider cancelledAt fuel attempt lastErr).calls = fuel
      ∧ (answerLoop provider cancelledAt fuel attempt lastErr).result =
          Except.error ("LLM failed after 3 attempts: " ++
            (if fuel = 0 then lastErr
             else provFailMsg (provider (attempt + fuel - 1)))) := by
  intro fuel
  induction fuel with
  | zero => intro attempt lastErr _; exact ⟨rfl, by simp [answerLoop]⟩
  | succ n ih =>
    intro attempt lastErr hfail
    rw [answerLoop]
    rw [if_neg (by simp [hnc])]
    have hat : provFails (provider attempt) = true :=
      hfail attempt (Nat.le_refl _) (by omega)
    rcases hp : provider attempt with e | a
    · have hrec := ih (attempt + 1) e
        (fun i h1 h2 => hfail i (by omega) (by omega))
      simp only [hp]
      refine ⟨by simpa using hrec.1, ?_⟩
      simp only [hrec.2]
      rcases Nat.eq_zero_or_pos n with rfl | hn
      · simp [provFailMsg, hp]
      · have hne : ¬ (n = 0) := by omega
        have hidx : attempt + 1 + n - 1 = attempt + (n + 1) - 1 := by omega
        simp [hne, hidx]
    · have ha : a = "" := by simpa [provFails, hp] using hat
      subst ha
      have hrec := ih (attempt + 1) "LLM returned empty answer"
        (fun i h1 h2 => hfail i (by omega) (by omega))
      simp only [hp, if_pos rfl]
      refine ⟨by simpa using hrec.1, ?_⟩
      simp only [hrec.2]
      rcases Nat.eq_zero_or_pos n with rfl | hn
      · simp [provFailMsg, hp]
      · have hne : ¬ (n = 0) := by omega
        have hidx : attempt + 1 + n - 1 = attempt + (n + 1) - 1 := by omega
        simp [hne, hidx]

lemma answerLoop_cancel_entry (provider : Nat → ProviderResult)
    (cancelledAt : Nat → Bool) (n attempt : Nat) (lastErr : String)
    (hpos : attempt > 0) (hcan : cancelledAt attempt = true) :
    answerLoop provider cancelledAt (n + 1) attempt lastErr =
      ⟨0, [llmRetryDelaySecs], Except.error "cancelled"⟩ := by
  rw [answerLoop, if_pos ⟨hpos, hcan⟩]

lemma answerLoop_cancelled_mid (provider : Nat → ProviderResult)
    (cancelledAt : Nat → Bool) :
    ∀ (fuel attempt k : Nat) (lastErr : String),
      attempt < k → k < attempt + fuel →
      (∀ i, attempt ≤ i → i < k → provFails (provider i) = true) →
      (∀ i, attempt ≤ i → i < k → 0 < i → cancelledAt i = false) →
      cancelledAt k = true →
      (answerLoop provider cancelledAt fuel attempt lastErr).result =
          Except.error "cancelled"
      ∧ (answerLoop provider cancelledAt fuel attempt lastErr).calls =
          k - attempt
      ∧ (answerLoop provider cancelledAt fuel attempt lastErr).sleeps =
          List.replicate (k - attempt + if attempt = 0 then 0 else 1)
            llmRetryDelaySecs := by
  intro fuel
  induction fuel with
  | zero => intro attempt k lastErr h1 h2 _ _ _; omega
  | succ n ih =>
    intro attempt k lastErr hak hkf hfail hnc hck
    have hentry : ¬(attempt > 0 ∧ cancelledAt attempt = true) := by
      rintro ⟨hpos, hcan⟩
      rw [hnc attempt (Nat.le_refl _) hak hpos] at hcan
      exact Bool.false_ne_true hcan
    have hat : provFails (provider attempt) = true :=
      hfail attempt (Nat.le_refl _) hak
    by_cases hk1 : attempt + 1 = k
    · -- the very next attempt is the cancelled one
      obtain ⟨m, rfl⟩ : ∃ m, n = m + 1 := ⟨n - 1, by omega⟩
      have hcank : cancelledAt (attempt + 1) = true := by
        rw [hk1]; exact hck
      have hka : k - attempt = 1 := by omega
      have hval : answerLoop provider cancelledAt (m + 1 + 1) attempt lastErr =
          ⟨0 + 1,
           (if attempt > 0 then [llmRetryDelaySecs] else []) ++
             [llmRetryDelaySecs],
           Except.error "cancelled"⟩ := by
        rw [answerLoop, if_neg hentry]
        rcases hp : provider attempt with e | a
        · dsimp only
          rw [answerLoop_cancel_entry provider cancelledAt m (attempt + 1) e
            (Nat.succ_pos attempt) hcank]
        · have ha : a = "" := by simpa [provFails, hp] using hat
          subst ha
          dsimp only
          rw [if_pos rfl, answerLoop_cancel_entry provider cancelledAt m
            (attempt + 1) "LLM returned empty answer" (Nat.succ_pos attempt)
            hcank]
      rw [hval]
      refine ⟨rfl, by simpa using hka.symm, ?_⟩
      rw [hka]
      by_cases h0 : attempt = 0
      · simp [h0]
      · simp [h0, Nat.pos_of_ne_zero h0, List.replicate]
    · -- the cancelled attempt lies further ahead
      have hlt : attempt + 1 < k := by omega
      have hfail2 : ∀ i, attempt + 1 ≤ i → i < k →
          provFails (provider i) = true :=
        fun i h1 h2 => hfail i (by omega) h2
      have hnc2 : ∀ i, attempt + 1 ≤ i → i < k → 0 < i →
          cancelledAt i = false :=
        fun i h1 h2 h3 => hnc i (by omega) h2 h3
      rcases hp : provider attempt with e | a
      · have ihres := ih (attempt + 1) k e hlt (by omega) hfail2 hnc2 hck
        have hval : answerLoop provider cancelledAt (n + 1) attempt lastErr =
            ⟨(answerLoop provider cancelledAt n (attempt + 1) e).calls + 1,
             (if attempt > 0 then [llmRetryDelaySecs] else []) ++
               (answerLoop provider cancelledAt n (attempt + 1) e).sleeps,
             (answerLoop provider cancelledAt n (attempt + 1) e).result⟩ := by
          rw [answerLoop, if_neg hentry]
          simp only [hp]
        rw [hval]
        refine ⟨ihres.1, ?_, ?_⟩
        · have h := ihres.2.1
          simp only [] at h ⊢
          omega
        · show (if attempt > 0 then [llmRetryDelaySecs] else []) ++
              (answerLoop provider cancelledAt n (attempt + 1) e).sleeps =
            List.replicate (k - attempt + if attempt = 0 then 0 else 1)
              llmRetryDelaySecs
          rw [ihres.2.2, if_neg (Nat.succ_ne_zero attempt)]
          have hidx : k - (attempt + 1) + 1 = k - attempt := by omega
          rw [hidx]
          by_cases h0 : attempt = 0
          · simp [h0]
          · simp [h0, Nat.pos_of_ne_zero h0, List.replicate_succ]
      · have ha : a = "" := by simpa [provFails, hp] using hat
        subst ha
        have ihres := ih (attempt + 1) k "LLM returned empty answer" hlt
          (by omega) hfail2 hnc2 hck
        have hval : answerLoop provider cancelledAt (n + 1) attempt lastErr =
            ⟨(answerLoop provider cancelledAt n (attempt + 1)
                "LLM returned empty answer").calls + 1,
             (if attempt > 0 then [llmRetryDelaySecs] else []) ++
               (answerLoop provider cancelledAt n (attempt + 1)
                 "LLM returned empty answer").sleeps,
             (answerLoop provider cancelledAt n (attempt + 1)
               "LLM returned empty answer").result⟩ := by
          rw [answerLoop, if_neg hentry]
          simp [hp]
        rw [hval]
        refine ⟨ihres.1, ?_, ?_⟩
        · have h := ihres.2.1
          simp only [] at h ⊢
          omega
        · show (if attempt > 0 then [llmRetryDelaySecs] else []) ++
              (answerLoop provider cancelledAt n (attempt + 1)
                "LLM returned empty answer").sleeps =
            List.replicate (k - attempt + if attempt = 0 then 0 else 1)
              llmRetryDelaySecs
          rw [ihres.2.2, if_neg (Nat.succ_ne_zero attempt)]
          have hidx : k - (attempt + 1) + 1 = k - attempt := by omega
          rw [hidx]
          by_cases h0 : attempt = 0
          · simp [h0]
          · simp [h0, Nat.pos_of_ne_zero h0, List.replicate_succ]

/-- C7: for every Provider behaviour and cancellation pattern, the solver
calls the Provider at most 3 times; every inter-attempt delay is the fixed
2 seconds; a returned answer is non-empty and is the first non-empty answer
the Provider produced (errors and empty answers before it all being failed
attempts); when all 3 attempts fail or return empty (and nothing is
cancelled) it returns an error wrapping the last cause after exactly 3
calls; and a cancellation during any of the inter-attempt delays — the
delay before attempt k, the earlier attempts having failed and no earlier
delay having been cancelled — makes it return immediately with a
cancellation error after exactly k Provider calls and k sleeps, never
retrying past the cancellation. -/
theorem c7_solver_bounded_retries (provider : Nat → ProviderResult)
    (cancelledAt : Nat → Bool) :
    (answerChallengeModel provider cancelledAt).calls ≤ maxLLMRetries
    ∧ (∀ s ∈ (answerChallengeModel provider cancelledAt).sleeps,
        s = llmRetryDelaySecs)
    ∧ (∀ a, (answerChallengeModel provider cancelledAt).result = Except.ok a →
        a ≠ "" ∧ ∃ i, i < maxLLMRetries ∧ provider i = ProviderResult.ok a
          ∧ ∀ j, j < i → provFails (provider j) = true)
    ∧ ((∀ i, i < maxLLMRetries → provFails (provider i) = true) →
        (∀ i, cancelledAt i = false) →
        (answerChallengeModel provider cancelledAt).result =
          Except.error ("LLM failed after 3 attempts: "
            ++ provFailMsg (provider 2))
        ∧ (answerChallengeModel provider cancelledAt).calls = maxLLMRetries)
    ∧ (∀ k, 0 < k → k < maxLLMRetries →
        (∀ i, i < k → provFails (provider i) = true) →
        (∀ i, i < k → 0 < i → cancelledAt i = false) →
        cancelledAt k = true →
        (answerChallengeModel provider cancelledAt).result =
          Except.error "cancelled"
        ∧ (answerChallengeModel provider cancelledAt).calls = k
        ∧ (answerChallengeModel provider cancelledAt).sleeps =
            List.replicate k llmRetryDelaySecs) := by
  refine ⟨?_, ?_, ?_, ?_, ?_⟩
  · exact answerLoop_calls_le provider cancelledAt maxLLMRetries 0 ""
  · exact fun s hs =>
      answerLoop_sleeps_two provider cancelledAt maxLLMRetries 0 "" s hs
  · intro a h
    obtain ⟨hne, i, -, h2, h3, h4⟩ :=
      answerLoop_ok_src provider cancelledAt maxLLMRetries 0 "" a h
    exact ⟨hne, i, by simpa using h2, h3, fun j hj => h4 j (Nat.zero_le j) hj⟩
  · intro hfail hnc
    have h := answerLoop_exhaust provider cancelledAt hnc maxLLMRetries 0 ""
      (fun i _ h2 => hfail i (by simpa using h2))
    refine ⟨?_, h.1⟩
    have h3 : ¬ (maxLLMRetries = 0) := by decide
    simpa [h3, maxLLMRetries] using h.2
  · intro k hk0 hkm hfail hnc hck
    have h := answerLoop_cancelled_mid provider cancelledAt maxLLMRetries 0 k
      "" hk0 (by omega) (fun i _ h2 => hfail i h2)
      (fun i _ h2 h3 => hnc i h2 h3) hck
    refine ⟨h.1, by simpa using h.2.1, ?_⟩
    simpa using h.2.2

/-- Witness for C7: two failed attempts, then a cancellation during the
2-second delay before the third attempt — the solve stops immediately after
exactly 2 Provider calls. -/
theorem c7_witness :
    (answerChallengeModel provW cancel2W).result = Except.error "cancelled"
    ∧ (answerChallengeModel provW cancel2W).calls = 2
    ∧ (answerChallengeModel provW cancel2W).sleeps =
        List.replicate 2 llmRetryDelaySecs :=
  (c7_solver_bounded_retries provW cancel2W).2.2.2.2 2 (by decide) (by decide)
    (by decide) (by decide) (by decide)

end ClawWork
